import Mathlib

/-!
Shallow embedding of `flask_pyoidc/auth_response_handler.py`:
the OpenID Connect authentication-response validation and
token-acquisition pipeline (`AuthResponseHandler.process_auth_response`).

Responses are modelled as records of optional fields (a Python mapping
with optional string keys); claim mappings (`to_dict` of an ID token or
the userinfo body) are association lists from claim names to string
values.  Python key lookups `m[k]` that may raise `KeyError` are
modelled by an explicit `keyError` outcome; the `raise` statements of
the source become the `Except.error` branch of the result.  The two
collaborator operations (`token_request`, `userinfo_request` of the
`PyoidcFacade` client) are modelled as the pure functions of a `Client`
record, and every invocation of a collaborator is recorded in a trace
of `CallEvent`s so that call-count properties can be stated.
-/

deriving instance DecidableEq for Except

namespace FlaskPyoidc

/-- A claims mapping (the `to_dict()` of an ID token or the userinfo
response): an association list from claim names to string values. -/
abbrev Claims := List (String × String)

/-- Python dictionary lookup `m[k]` returning `none` where Python would
raise `KeyError`. -/
def claimsLookup (c : Claims) (k : String) : Option String :=
  (c.find? (fun p => p.1 == k)).map (fun p => p.2)

/-- A parsed ID token as the core consumes it: its decoded claims
(`to_dict`).  Signature verification happens upstream. -/
structure IdToken where
  claims : Claims
deriving DecidableEq, Repr

/-- `IdToken.to_dict()`. -/
def IdToken.toDict (t : IdToken) : Claims := t.claims

/-- The parsed OIDC authorization response
(`AuthorizationResponse`/`AuthorizationErrorResponse`): a mapping whose
keys may each be absent.  `error` stands for the whole error content
(`error`, `error_description`); its presence is what `'error' in
auth_response` tests. -/
structure AuthResponse where
  error : Option String
  state : Option String
  code : Option String
  access_token : Option String
  id_token : Option IdToken
  id_token_jwt : Option String
deriving DecidableEq, Repr

/-- The token-endpoint response: a mapping whose keys may each be
absent. -/
structure TokenResponse where
  error : Option String
  access_token : Option String
  id_token : Option IdToken
  id_token_jwt : Option String
deriving DecidableEq, Repr

/-- Payload of `AuthResponseErrorResponseError`: the `to_dict()` of
whichever response carried the `error` key. -/
inductive ErrorPayload where
  | auth (response : AuthResponse)
  | token (response : TokenResponse)
deriving DecidableEq, Repr

/-- The failure outcomes of `process_auth_response`.  The first four
are the tagged `AuthResponseProcessError` subclasses raised by the
source; `keyError k` models a raw Python `KeyError` escaping from a
lookup `m[k]` on a mapping missing key `k`. -/
inductive ProcessError where
  | errorResponse (payload : ErrorPayload)
  | unexpectedState
  | unexpectedNonce
  | mismatchingSubject (msg : String)
  | keyError (key : String)
deriving DecidableEq, Repr

/-- The `AuthenticationResult` namedtuple. -/
structure AuthenticationResult where
  access_token : Option String
  id_token_claims : Option Claims
  id_token_jwt : Option String
  userinfo_claims : Option Claims
deriving DecidableEq, Repr

/-- The collaborator (`PyoidcFacade` client proxy), reduced to the two
operations the core invokes.  Both are pure functions: fixed
collaborator behaviour for a run.  `userinfo_request` yields the
claims of the userinfo body, with `[]` standing for an empty or absent
body (Python falsy). -/
structure Client where
  token_request : String → TokenResponse
  userinfo_request : Option String → Claims

/-- One collaborator invocation, recorded in order of occurrence. -/
inductive CallEvent where
  | tokenCall (code : String)
  | userinfoCall (access_token : Option String)
deriving DecidableEq, Repr

/-- Whether a recorded call is a userinfo invocation. -/
def CallEvent.isUserinfoCall : CallEvent → Bool
  | .userinfoCall _ => true
  | _ => false

/-- Lines 87-90 of the source: the subject cross-check and result
construction.  A claims mapping takes part in the check only when it
is present and non-empty (Python truthiness of `None` and `{}`); the
`sub` lookups follow Python evaluation order (userinfo first). -/
def assembleResult (access_token : Option String) (id_token_claims : Option Claims)
    (id_token_jwt : Option String) (userinfo_claims : Option Claims) :
    Except ProcessError AuthenticationResult :=
  match id_token_claims, userinfo_claims with
  | some icl, some ucl =>
    if !icl.isEmpty && !ucl.isEmpty then
      match claimsLookup ucl "sub" with
      | none => Except.error (ProcessError.keyError "sub")
      | some usub =>
        match claimsLookup icl "sub" with
        | none => Except.error (ProcessError.keyError "sub")
        | some isub =>
          if usub != isub then
            Except.error (ProcessError.mismatchingSubject
              "The sub of userinfo does not match sub of ID Token.")
          else
            Except.ok ⟨access_token, id_token_claims, id_token_jwt, userinfo_claims⟩
    else Except.ok ⟨access_token, id_token_claims, id_token_jwt, userinfo_claims⟩
  | _, _ => Except.ok ⟨access_token, id_token_claims, id_token_jwt, userinfo_claims⟩

/-- Lines 81-90 of the source: the userinfo request
(`self._client.userinfo_request(access_token)`), the truthiness test
`if userinfo:` that leaves `userinfo_claims` as `None` for an empty
body, then the subject cross-check and result construction. -/
def userinfoStage (client : Client) (access_token : Option String)
    (id_token_claims : Option Claims) (id_token_jwt : Option String) :
    Except ProcessError AuthenticationResult × List CallEvent :=
  let userinfo := client.userinfo_request access_token
  let userinfo_claims : Option Claims := if userinfo.isEmpty then none else some userinfo
  (assembleResult access_token id_token_claims id_token_jwt userinfo_claims,
   [CallEvent.userinfoCall access_token])

/-- Lines 58-79 of the source: extraction of any implicit/hybrid-flow
tokens from the authorization response, then — when a `code` is
present — the token-endpoint call with its error check, the
`token_resp['access_token']` lookup (which precedes the id-token
block and raises `KeyError` when absent), and the nonce check and
claim overwrite for an id token in the token response.  Yields the
resolved `(access_token, id_token_claims, id_token_jwt)` triple. -/
def tokenResolution (client : Client) (auth_response : AuthResponse)
    (expected_nonce : Option String) :
    Except ProcessError (Option String × Option Claims × Option String) × List CallEvent :=
  let access_token := auth_response.access_token
  let id_token_claims := auth_response.id_token.map IdToken.toDict
  let id_token_jwt :=
    if auth_response.id_token_jwt.isSome then auth_response.id_token_jwt else none
  match auth_response.code with
  | none => (Except.ok (access_token, id_token_claims, id_token_jwt), [])
  | some code =>
    let token_resp := client.token_request code
    let events := [CallEvent.tokenCall code]
    if token_resp.error.isSome then
      (Except.error (ProcessError.errorResponse (ErrorPayload.token token_resp)), events)
    else
      match token_resp.access_token with
      | none => (Except.error (ProcessError.keyError "access_token"), events)
      | some tok =>
        match token_resp.id_token with
        | none => (Except.ok (some tok, id_token_claims, id_token_jwt), events)
        | some id_token =>
          match claimsLookup id_token.claims "nonce" with
          | none => (Except.error (ProcessError.keyError "nonce"), events)
          | some nonce =>
            if some nonce != expected_nonce then
              (Except.error ProcessError.unexpectedNonce, events)
            else
              (Except.ok (some tok, some id_token.toDict, token_resp.id_token_jwt), events)

/-- `AuthResponseHandler.process_auth_response` (lines 43-90): the
error check, the `auth_response['state']` lookup and state check, the
token resolution, and the userinfo stage, together with the ordered
trace of collaborator invocations the run performs. -/
def process_auth_response (client : Client) (auth_response : AuthResponse)
    (expected_state : String) (expected_nonce : Option String) :
    Except ProcessError AuthenticationResult × List CallEvent :=
  if auth_response.error.isSome then
    (Except.error (ProcessError.errorResponse (ErrorPayload.auth auth_response)), [])
  else
    match auth_response.state with
    | none => (Except.error (ProcessError.keyError "state"), [])
    | some st =>
      if st != expected_state then
        (Except.error ProcessError.unexpectedState, [])
      else
        match tokenResolution client auth_response expected_nonce with
        | (Except.error e, events) => (Except.error e, events)
        | (Except.ok (access_token, id_token_claims, id_token_jwt), events) =>
          let after := userinfoStage client access_token id_token_claims id_token_jwt
          (after.1, events ++ after.2)

/-! ### Helper lemmas shared by several claims -/

/-- `assembleResult` succeeds exactly with the tuple of its inputs. -/
theorem assembleResult_ok_eq (a : Option String) (i : Option Claims) (j : Option String)
    (u : Option Claims) (res : AuthenticationResult)
    (h : assembleResult a i j u = Except.ok res) : res = ⟨a, i, j, u⟩ := by
  unfold assembleResult at h
  split at h <;> try simp_all
  split at h <;> try simp_all
  split at h <;> try simp_all
  split at h <;> try simp_all
  split at h <;> simp_all

/-- The only failures `assembleResult` can produce are the subject
mismatch and a missing-`sub` `KeyError`. -/
theorem assembleResult_error_cases (a : Option String) (i : Option Claims) (j : Option String)
    (u : Option Claims) (e : ProcessError)
    (h : assembleResult a i j u = Except.error e) :
    e = ProcessError.mismatchingSubject
        "The sub of userinfo does not match sub of ID Token." ∨
    e = ProcessError.keyError "sub" := by
  unfold assembleResult at h
  split at h <;> try simp_all
  split at h <;> try simp_all
  split at h <;> try simp_all
  split at h <;> try simp_all
  split at h <;> simp_all

/-- Under a passing error check and state check, the pipeline reduces
to the userinfo call followed by result assembly on the resolved
token triple. -/
theorem process_eq_assemble (client : Client) (r : AuthResponse)
    (expected_state : String) (expected_nonce : Option String)
    (tok : Option String) (ic : Option Claims) (jwt : Option String)
    (events : List CallEvent)
    (herr : r.error = none) (hst : r.state = some expected_state)
    (hres : tokenResolution client r expected_nonce = (Except.ok (tok, ic, jwt), events)) :
    process_auth_response client r expected_state expected_nonce =
      (assembleResult tok ic jwt
        (if (client.userinfo_request tok).isEmpty then none
         else some (client.userinfo_request tok)),
       events ++ [CallEvent.userinfoCall tok]) := by
  simp [process_auth_response, herr, hst, hres, userinfoStage]

/-- A successful run decomposes into a successful token resolution
followed by the userinfo call and a successful assembly. -/
theorem process_ok_inv (client : Client) (r : AuthResponse)
    (expected_state : String) (expected_nonce : Option String)
    (res : AuthenticationResult) (events : List CallEvent)
    (hrun : process_auth_response client r expected_state expected_nonce =
      (Except.ok res, events)) :
    ∃ tok ic jwt tr,
      tokenResolution client r expected_nonce = (Except.ok (tok, ic, jwt), tr) ∧
      events = tr ++ [CallEvent.userinfoCall tok] ∧
      assembleResult tok ic jwt
        (if (client.userinfo_request tok).isEmpty then none
         else some (client.userinfo_request tok)) = Except.ok res := by
  unfold process_auth_response at hrun
  split at hrun <;> try simp_all
  split at hrun <;> try simp_all
  split at hrun <;> try simp_all
  split at hrun
  · simp_all
  · rename_i tok ic jwt events' heq
    refine ⟨tok, ic, jwt, events', heq, ?_, ?_⟩ <;>
      simp_all [userinfoStage]

/-- Token resolution never records a userinfo invocation: its trace is
empty or the single token-endpoint call. -/
theorem tokenResolution_events_no_userinfo (client : Client) (r : AuthResponse)
    (expected_nonce : Option String) :
    ((tokenResolution client r expected_nonce).2.filter CallEvent.isUserinfoCall) = [] := by
  simp only [tokenResolution]
  repeat' split
  all_goals simp [CallEvent.isUserinfoCall]

/-- The failures token resolution can produce: a provider-reported
token error, the missing-`access_token` or missing-`nonce` `KeyError`,
or the nonce mismatch. -/
theorem tokenResolution_error_cases (client : Client) (r : AuthResponse)
    (expected_nonce : Option String) (e : ProcessError)
    (h : (tokenResolution client r expected_nonce).1 = Except.error e) :
    (∃ tresp, e = ProcessError.errorResponse (ErrorPayload.token tresp)) ∨
    e = ProcessError.keyError "access_token" ∨
    e = ProcessError.keyError "nonce" ∨
    e = ProcessError.unexpectedNonce := by
  simp only [tokenResolution] at h
  repeat' split at h
  all_goals try simp_all
  all_goals exact Or.inl ⟨_, h.symm⟩

/-- When a code exchange happens and the token response carries no
error and does carry an `access_token`, any successful resolution
resolves exactly that access token. -/
theorem tokenResolution_code_access_token (client : Client) (r : AuthResponse)
    (expected_nonce : Option String) (code tok : String)
    (triple : Option String × Option Claims × Option String) (tr : List CallEvent)
    (hcode : r.code = some code)
    (hte : (client.token_request code).error = none)
    (hta : (client.token_request code).access_token = some tok)
    (h : tokenResolution client r expected_nonce = (Except.ok triple, tr)) :
    triple.1 = some tok := by
  simp only [tokenResolution, hcode, hte, hta, Option.isSome_none, Bool.false_eq_true,
    if_false] at h
  repeat' split at h
  all_goals try simp_all
  all_goals (obtain ⟨h1, h2⟩ := h; subst h1; rfl)

/-! ### Concrete fixtures used by witnesses and counterexamples -/

/-- A collaborator whose token endpoint reports no error and whose
userinfo endpoint yields claims for subject `user1`. -/
def noopClient : Client :=
  { token_request := fun _ => ⟨none, some "tokenB", none, none⟩
    userinfo_request := fun _ => [("sub", "user1")] }

/-! ### Claims -/

/-- Claim C2: for every authorization response containing an `error` key,
`process_auth_response` fails with `ErrorResponseError` whose payload
is the response itself, regardless of every other field value, with an
empty collaborator trace (so before the state check and without
invoking either collaborator). -/
theorem C2_error_response_priority (client : Client) (r : AuthResponse)
    (expected_state : String) (expected_nonce : Option String)
    (herr : r.error.isSome) :
    process_auth_response client r expected_state expected_nonce =
      (Except.error (ProcessError.errorResponse (ErrorPayload.auth r)), []) := by
  simp [process_auth_response, herr]

/-- Witness for C2: a response carrying an error and a matching state
still fails with the error payload and no collaborator call. -/
theorem C2_error_response_priority_witness :
    process_auth_response noopClient
        ⟨some "access_denied", some "state1", some "codeA", none, none, none⟩
        "state1" none =
      (Except.error (ProcessError.errorResponse (ErrorPayload.auth
        ⟨some "access_denied", some "state1", some "codeA", none, none, none⟩)), []) :=
  C2_error_response_priority noopClient
    ⟨some "access_denied", some "state1", some "codeA", none, none, none⟩
    "state1" none (by decide)

/-- Claim C3: for every response without an `error` key whose `state` value
differs from `expected_state`, `process_auth_response` fails with
`UnexpectedStateError` (a payload-free error) and an empty collaborator
trace, so neither collaborator is invoked. -/
theorem C3_unexpected_state (client : Client) (r : AuthResponse)
    (expected_state : String) (expected_nonce : Option String) (st : String)
    (herr : r.error = none) (hst : r.state = some st) (hne : st ≠ expected_state) :
    process_auth_response client r expected_state expected_nonce =
      (Except.error ProcessError.unexpectedState, []) := by
  simp [process_auth_response, herr, hst, hne]

/-- Witness for C3: a mismatching state fails with
`UnexpectedStateError` and no collaborator call. -/
theorem C3_unexpected_state_witness :
    process_auth_response noopClient
        ⟨none, some "state2", some "codeA", none, none, none⟩ "state1" none =
      (Except.error ProcessError.unexpectedState, []) :=
  C3_unexpected_state noopClient
    ⟨none, some "state2", some "codeA", none, none, none⟩
    "state1" none "state2" rfl rfl (by decide)

/-- Claim C8: the pipeline is a pure function of the response, the expected
state and nonce, and the collaborator behaviour: two runs against
collaborators that return identical responses produce identical
outcomes (result and trace alike). -/
theorem C8_process_deterministic (c₁ c₂ : Client) (r : AuthResponse)
    (expected_state : String) (expected_nonce : Option String)
    (ht : ∀ code, c₁.token_request code = c₂.token_request code)
    (hu : ∀ tok, c₁.userinfo_request tok = c₂.userinfo_request tok) :
    process_auth_response c₁ r expected_state expected_nonce =
      process_auth_response c₂ r expected_state expected_nonce := by
  have hc : c₁ = c₂ := by
    cases c₁
    cases c₂
    simp only [Client.mk.injEq]
    exact ⟨funext ht, funext hu⟩
  rw [hc]

/-- Witness for C8: two syntactically distinct but pointwise-equal
collaborators give identical runs. -/
theorem C8_process_deterministic_witness :
    process_auth_response noopClient
        ⟨none, some "state1", none, some "tokenA", none, none⟩ "state1" none =
      process_auth_response
        { token_request := fun _c => ⟨none, some "tokenB", none, none⟩
          userinfo_request := fun _t => [("sub", "user1")] }
        ⟨none, some "state1", none, some "tokenA", none, none⟩ "state1" none :=
  C8_process_deterministic noopClient
    { token_request := fun _c => ⟨none, some "tokenB", none, none⟩
      userinfo_request := fun _t => [("sub", "user1")] }
    ⟨none, some "state1", none, some "tokenA", none, none⟩ "state1" none
    (fun _ => rfl) (fun _ => rfl)

/-- Claim C9: a response with neither an `error` key nor a `state` key makes
the `auth_response['state']` lookup raise a raw `KeyError` (never
`UnexpectedStateError` or another tagged error), with no collaborator
invoked; and whenever `state` is present this untagged failure cannot
occur. -/
theorem C9_missing_state_keyerror (client : Client) (r : AuthResponse)
    (expected_state : String) (expected_nonce : Option String) :
    (r.error = none → r.state = none →
      process_auth_response client r expected_state expected_nonce =
        (Except.error (ProcessError.keyError "state"), [])) ∧
    (r.state.isSome →
      (process_auth_response client r expected_state expected_nonce).1 ≠
        Except.error (ProcessError.keyError "state")) := by
  constructor
  · intro herr hstate
    simp [process_auth_response, herr, hstate]
  · intro hsome hcontra
    obtain ⟨st, hst⟩ := Option.isSome_iff_exists.mp hsome
    by_cases he : r.error.isSome
    · simp [process_auth_response, he] at hcontra
    · rw [Option.not_isSome_iff_eq_none] at he
      by_cases heq : st = expected_state
      · subst heq
        rcases hres : tokenResolution client r expected_nonce with ⟨tres, tr⟩
        cases tres with
        | error e =>
          have hpr : (process_auth_response client r st expected_nonce).1 =
              Except.error e := by
            simp [process_auth_response, he, hst, hres]
          rw [hpr] at hcontra
          have hcases := tokenResolution_error_cases client r expected_nonce e
            (by rw [hres])
          rcases hcases with ⟨t, ht⟩ | ht | ht | ht <;> simp_all
        | ok triple =>
          obtain ⟨tok, ic, jwt⟩ := triple
          have hp := process_eq_assemble client r st expected_nonce tok ic jwt tr
            he hst hres
          rw [hp] at hcontra
          simp only at hcontra
          rcases hasm : assembleResult tok ic jwt
              (if (client.userinfo_request tok).isEmpty then none
               else some (client.userinfo_request tok)) with e₂ | res₂
          · rw [hasm] at hcontra
            have := assembleResult_error_cases tok ic jwt
              (if (client.userinfo_request tok).isEmpty then none
               else some (client.userinfo_request tok)) e₂ hasm
            rcases this with ht | ht <;> simp_all
          · rw [hasm] at hcontra
            exact Except.noConfusion hcontra
      · simp [process_auth_response, he, hst, heq] at hcontra

/-- Witness for C9: with no `error` and no `state` key the run fails
with the raw `KeyError`; with a `state` key present it does not. -/
theorem C9_missing_state_keyerror_witness :
    process_auth_response noopClient ⟨none, none, none, none, none, none⟩
        "state1" none =
      (Except.error (ProcessError.keyError "state"), []) ∧
    (process_auth_response noopClient ⟨none, some "state1", none, none, none, none⟩
        "state1" none).1 ≠
      Except.error (ProcessError.keyError "state") :=
  ⟨(C9_missing_state_keyerror noopClient ⟨none, none, none, none, none, none⟩
      "state1" none).1 rfl rfl,
   (C9_missing_state_keyerror noopClient ⟨none, some "state1", none, none, none, none⟩
      "state1" none).2 (by decide)⟩

/-- An implicit-flow authorization response: matching state, a direct
access token and ID token, no `code` key; the ID token's `nonce` claim
is `"wrong"`. -/
def implicitResp : AuthResponse :=
  ⟨none, some "state1", none, some "tokenA",
   some ⟨[("sub", "user1"), ("nonce", "wrong")]⟩, none⟩

/-- Counterexample to C1 as stated: an implicit-flow response whose ID
token carries nonce `"wrong"` while `expected_nonce` is `"nonce1"`
passes the error and state checks, yet the run succeeds — it does not
fail with `UnexpectedNonceError`, because the nonce check only runs
inside the code-exchange branch. -/
theorem C1_counterexample :
    implicitResp.error = none ∧
    implicitResp.state = some "state1" ∧
    implicitResp.code = none ∧
    implicitResp.id_token = some ⟨[("sub", "user1"), ("nonce", "wrong")]⟩ ∧
    claimsLookup [("sub", "user1"), ("nonce", "wrong")] "nonce" = some "wrong" ∧
    (some "wrong" : Option String) ≠ some "nonce1" ∧
    process_auth_response noopClient implicitResp "state1" (some "nonce1") =
      (Except.ok ⟨some "tokenA", some [("sub", "user1"), ("nonce", "wrong")], none,
        some [("sub", "user1")]⟩,
       [CallEvent.userinfoCall (some "tokenA")]) ∧
    (process_auth_response noopClient implicitResp "state1" (some "nonce1")).1 ≠
      Except.error ProcessError.unexpectedNonce := by
  decide

/-- Claim C1 (amended): for every authorization response that passes the
error and state checks, contains an ID token but no `code` key, and
whose ID token's `nonce` claim differs from `expected_nonce`,
`process_auth_response` never fails with `UnexpectedNonceError`: nonce
validation runs only inside the code-exchange branch, so it is skipped
for the implicit flow's direct token. -/
theorem C1_implicit_nonce_unchecked (client : Client) (r : AuthResponse)
    (expected_state : String) (expected_nonce : Option String)
    (t : IdToken) (v : String)
    (herr : r.error = none) (hst : r.state = some expected_state)
    (hcode : r.code = none) (_hid : r.id_token = some t)
    (_hnonce : claimsLookup t.claims "nonce" = some v)
    (_hdiff : (some v : Option String) ≠ expected_nonce) :
    (process_auth_response client r expected_state expected_nonce).1 ≠
      Except.error ProcessError.unexpectedNonce := by
  intro hcontra
  have hres : tokenResolution client r expected_nonce =
      (Except.ok (r.access_token, r.id_token.map IdToken.toDict,
        if r.id_token_jwt.isSome then r.id_token_jwt else none), []) := by
    simp [tokenResolution, hcode]
  have hp := process_eq_assemble client r expected_state expected_nonce
    r.access_token (r.id_token.map IdToken.toDict)
    (if r.id_token_jwt.isSome then r.id_token_jwt else none) []
    herr hst hres
  rw [hp] at hcontra
  simp only at hcontra
  have := assembleResult_error_cases r.access_token (r.id_token.map IdToken.toDict)
    (if r.id_token_jwt.isSome then r.id_token_jwt else none)
    (if (client.userinfo_request r.access_token).isEmpty then none
     else some (client.userinfo_request r.access_token))
    ProcessError.unexpectedNonce hcontra
  rcases this with ht | ht <;> simp_all

/-- Witness for the amended C1 at the concrete implicit-flow run. -/
theorem C1_implicit_nonce_unchecked_witness :
    (process_auth_response noopClient implicitResp "state1" (some "nonce1")).1 ≠
      Except.error ProcessError.unexpectedNonce :=
  C1_implicit_nonce_unchecked noopClient implicitResp "state1" (some "nonce1")
    ⟨[("sub", "user1"), ("nonce", "wrong")]⟩ "wrong"
    rfl rfl rfl rfl (by decide) (by decide)

/-- A collaborator whose token endpoint yields an error-free token
response that contains an ID token with a mismatching nonce but no
`access_token` key. -/
def droppedTokenClient : Client :=
  { token_request := fun _ => ⟨none, none, some ⟨[("nonce", "bad")]⟩, none⟩
    userinfo_request := fun _ => [] }

/-- A code-flow authorization response with matching state. -/
def codeResp : AuthResponse := ⟨none, some "state1", some "codeA", none, none, none⟩

/-- Counterexample to C4 as stated: the token response has no `error`
key and carries an ID token whose nonce `"bad"` differs from the
expected `"nonce1"`, yet the run fails with the raw `KeyError` on
`access_token` — line 69 of the source looks up
`token_resp['access_token']` before the nonce check — not with
`UnexpectedNonceError`. -/
theorem C4_counterexample :
    codeResp.error = none ∧
    codeResp.state = some "state1" ∧
    codeResp.code = some "codeA" ∧
    (droppedTokenClient.token_request "codeA").error = none ∧
    (droppedTokenClient.token_request "codeA").id_token = some ⟨[("nonce", "bad")]⟩ ∧
    claimsLookup [("nonce", "bad")] "nonce" = some "bad" ∧
    (some "bad" : Option String) ≠ some "nonce1" ∧
    process_auth_response droppedTokenClient codeResp "state1" (some "nonce1") =
      (Except.error (ProcessError.keyError "access_token"),
       [CallEvent.tokenCall "codeA"]) ∧
    (process_auth_response droppedTokenClient codeResp "state1" (some "nonce1")).1 ≠
      Except.error ProcessError.unexpectedNonce := by
  decide

/-- Claim C4 (amended): for every code-flow response passing the error and
state checks whose token exchange returns a response without `error`,
containing an `access_token`, and containing an ID token whose `nonce`
claim differs from `expected_nonce`, the run fails with
`UnexpectedNonceError`. -/
theorem C4_code_nonce_mismatch (client : Client) (r : AuthResponse)
    (expected_state : String) (expected_nonce : Option String)
    (code tok : String) (t : IdToken) (v : String)
    (herr : r.error = none) (hst : r.state = some expected_state)
    (hcode : r.code = some code)
    (hte : (client.token_request code).error = none)
    (hta : (client.token_request code).access_token = some tok)
    (hti : (client.token_request code).id_token = some t)
    (hnonce : claimsLookup t.claims "nonce" = some v)
    (hdiff : (some v : Option String) ≠ expected_nonce) :
    process_auth_response client r expected_state expected_nonce =
      (Except.error ProcessError.unexpectedNonce, [CallEvent.tokenCall code]) := by
  simp [process_auth_response, tokenResolution, herr, hst, hcode, hte, hta, hti,
    hnonce, hdiff]

/-- Witness for the amended C4: with the access token present in the
token response, the mismatching nonce is detected. -/
theorem C4_code_nonce_mismatch_witness :
    process_auth_response
        { token_request := fun _c => ⟨none, some "tokenB", some ⟨[("nonce", "bad")]⟩, none⟩
          userinfo_request := fun _t => [] }
        codeResp "state1" (some "nonce1") =
      (Except.error ProcessError.unexpectedNonce, [CallEvent.tokenCall "codeA"]) :=
  C4_code_nonce_mismatch
    { token_request := fun _c => ⟨none, some "tokenB", some ⟨[("nonce", "bad")]⟩, none⟩
      userinfo_request := fun _t => [] }
    codeResp "state1" (some "nonce1") "codeA" "tokenB" ⟨[("nonce", "bad")]⟩ "bad"
    rfl rfl rfl rfl rfl rfl (by decide) (by decide)

/-- A successful lookup forces the claims mapping to be non-empty. -/
theorem claimsLookup_isEmpty_false (c : Claims) (k v : String)
    (h : claimsLookup c k = some v) : c.isEmpty = false := by
  cases c <;> simp_all [claimsLookup]

/-- Claim C5: for every code-flow response whose token exchange yields a
response with no `error` key and containing an `access_token`, any
`AuthenticationResult` the run returns carries exactly that access
token — the code-flow token unconditionally overwrites any
implicit-flow value. -/
theorem C5_code_flow_token_authoritative (client : Client) (r : AuthResponse)
    (expected_state : String) (expected_nonce : Option String)
    (code tok : String) (res : AuthenticationResult) (events : List CallEvent)
    (hcode : r.code = some code)
    (hte : (client.token_request code).error = none)
    (hta : (client.token_request code).access_token = some tok)
    (hrun : process_auth_response client r expected_state expected_nonce =
      (Except.ok res, events)) :
    res.access_token = some tok := by
  obtain ⟨tok', ic, jwt, tr, hres, hev, hasm⟩ :=
    process_ok_inv client r expected_state expected_nonce res events hrun
  have h1 : tok' = some tok :=
    tokenResolution_code_access_token client r expected_nonce code tok
      (tok', ic, jwt) tr hcode hte hta hres
  have h2 := assembleResult_ok_eq _ _ _ _ _ hasm
  subst h2
  exact h1

/-- Witness for C5: an implicit access token `tokenA` in the response
is overwritten by the exchanged token `tokenB`. -/
theorem C5_code_flow_token_authoritative_witness :
    (AuthenticationResult.mk (some "tokenB") none none (some [("sub", "user1")])).access_token =
      some "tokenB" :=
  C5_code_flow_token_authoritative noopClient
    ⟨none, some "state1", some "codeA", some "tokenA", none, none⟩
    "state1" none "codeA" "tokenB"
    ⟨some "tokenB", none, none, some [("sub", "user1")]⟩
    [CallEvent.tokenCall "codeA", CallEvent.userinfoCall (some "tokenB")]
    rfl rfl rfl (by decide)

/-- Claim C6: on every successful run, `userinfo_claims` is exactly the
claims of the userinfo collaborator's reply when that reply is
non-empty, and `none` when it is empty — where the run did invoke the
collaborator (the call is in the trace). -/
theorem C6_userinfo_claims_iff_nonempty (client : Client) (r : AuthResponse)
    (expected_state : String) (expected_nonce : Option String)
    (res : AuthenticationResult) (events : List CallEvent)
    (hrun : process_auth_response client r expected_state expected_nonce =
      (Except.ok res, events)) :
    ∃ tok, CallEvent.userinfoCall tok ∈ events ∧
      res.userinfo_claims =
        (if (client.userinfo_request tok).isEmpty then none
         else some (client.userinfo_request tok)) := by
  obtain ⟨tok, ic, jwt, tr, hres, hev, hasm⟩ :=
    process_ok_inv client r expected_state expected_nonce res events hrun
  refine ⟨tok, ?_, ?_⟩
  · rw [hev]
    simp
  · have h2 := assembleResult_ok_eq _ _ _ _ _ hasm
    subst h2
    rfl

/-- Witness for C6: a successful run whose userinfo reply is non-empty
has those claims as `userinfo_claims`. -/
theorem C6_userinfo_claims_iff_nonempty_witness :
    ∃ tok, CallEvent.userinfoCall tok ∈
        [CallEvent.userinfoCall (some "tokenA")] ∧
      (AuthenticationResult.mk (some "tokenA")
          (some [("sub", "user1"), ("nonce", "wrong")]) none
          (some [("sub", "user1")])).userinfo_claims =
        (if (noopClient.userinfo_request tok).isEmpty then none
         else some (noopClient.userinfo_request tok)) :=
  C6_userinfo_claims_iff_nonempty noopClient implicitResp "state1" (some "nonce1")
    ⟨some "tokenA", some [("sub", "user1"), ("nonce", "wrong")], none,
      some [("sub", "user1")]⟩
    [CallEvent.userinfoCall (some "tokenA")] (by decide)

/-- Claim C7: on every run reaching the assembly stage (error and state
checks passed, token resolution succeeded, userinfo fetched as `uc`):
when both claim sets are present with differing `sub` values the run
fails with `MismatchingSubjectError`; when the `sub` values are equal,
or either claim set is absent, the run returns the
`AuthenticationResult` built from the resolved values. -/
theorem C7_subject_cross_check (client : Client) (r : AuthResponse)
    (expected_state : String) (expected_nonce : Option String)
    (tok : Option String) (ic : Option Claims) (jwt : Option String)
    (events : List CallEvent) (uc : Option Claims)
    (herr : r.error = none) (hst : r.state = some expected_state)
    (hres : tokenResolution client r expected_nonce = (Except.ok (tok, ic, jwt), events))
    (huc : (if (client.userinfo_request tok).isEmpty then none
            else some (client.userinfo_request tok)) = uc) :
    (∀ icl ucl isub usub, ic = some icl → uc = some ucl →
      claimsLookup ucl "sub" = some usub → claimsLookup icl "sub" = some isub →
      usub ≠ isub →
      (process_auth_response client r expected_state expected_nonce).1 =
        Except.error (ProcessError.mismatchingSubject
          "The sub of userinfo does not match sub of ID Token.")) ∧
    (∀ icl ucl isub usub, ic = some icl → uc = some ucl →
      claimsLookup ucl "sub" = some usub → claimsLookup icl "sub" = some isub →
      usub = isub →
      (process_auth_response client r expected_state expected_nonce).1 =
        Except.ok ⟨tok, ic, jwt, uc⟩) ∧
    ((ic = none ∨ uc = none) →
      (process_auth_response client r expected_state expected_nonce).1 =
        Except.ok ⟨tok, ic, jwt, uc⟩) := by
  have hp := process_eq_assemble client r expected_state expected_nonce tok ic jwt
    events herr hst hres
  rw [hp]
  simp only
  rw [huc]
  refine ⟨?_, ?_, ?_⟩
  · intro icl ucl isub usub hic hucl hus his hne
    subst hic
    subst hucl
    have h1 := claimsLookup_isEmpty_false icl "sub" isub his
    have h2 := claimsLookup_isEmpty_false ucl "sub" usub hus
    simp [assembleResult, h1, h2, hus, his, hne]
  · intro icl ucl isub usub hic hucl hus his heq
    subst hic
    subst hucl
    subst heq
    have h1 := claimsLookup_isEmpty_false icl "sub" usub his
    have h2 := claimsLookup_isEmpty_false ucl "sub" usub hus
    simp [assembleResult, h1, h2, hus, his]
  · intro habs
    rcases habs with h | h
    · subst h
      cases uc <;> simp [assembleResult]
    · subst h
      cases ic <;> simp [assembleResult]

/-- Witness for C7: with ID-token subject `user1` and userinfo subject
`user2`, the run fails with `MismatchingSubjectError`. -/
theorem C7_subject_cross_check_witness :
    (process_auth_response
        { token_request := fun _c => ⟨none, some "tokenB", none, none⟩
          userinfo_request := fun _t => [("sub", "user2")] }
        implicitResp "state1" (some "wrong")).1 =
      Except.error (ProcessError.mismatchingSubject
        "The sub of userinfo does not match sub of ID Token.") :=
  (C7_subject_cross_check
      { token_request := fun _c => ⟨none, some "tokenB", none, none⟩
        userinfo_request := fun _t => [("sub", "user2")] }
      implicitResp "state1" (some "wrong") (some "tokenA")
      (some [("sub", "user1"), ("nonce", "wrong")]) none [] (some [("sub", "user2")])
      rfl rfl rfl (by decide)).1
    [("sub", "user1"), ("nonce", "wrong")] [("sub", "user2")] "user1" "user2"
    rfl rfl (by decide) (by decide) (by decide)

/-- Claim C10: on every invocation that passes the error and state checks
and completes token resolution without aborting, the userinfo
collaborator is invoked exactly once, with the resolved access token —
including when that token is `None`. -/
theorem C10_userinfo_always_called (client : Client) (r : AuthResponse)
    (expected_state : String) (expected_nonce : Option String)
    (tok : Option String) (ic : Option Claims) (jwt : Option String)
    (events : List CallEvent)
    (herr : r.error = none) (hst : r.state = some expected_state)
    (hres : tokenResolution client r expected_nonce = (Except.ok (tok, ic, jwt), events)) :
    ((process_auth_response client r expected_state expected_nonce).2.filter
        CallEvent.isUserinfoCall) = [CallEvent.userinfoCall tok] := by
  have hp := process_eq_assemble client r expected_state expected_nonce tok ic jwt
    events herr hst hres
  rw [hp]
  have hev : events.filter CallEvent.isUserinfoCall = [] := by
    have h := tokenResolution_events_no_userinfo client r expected_nonce
    rw [hres] at h
    exact h
  simp [List.filter_append, hev, CallEvent.isUserinfoCall]

/-- Witness for C10: a response with no token anywhere still leads to
exactly one userinfo call, carrying `none`. -/
theorem C10_userinfo_always_called_witness :
    ((process_auth_response noopClient ⟨none, some "state1", none, none, none, none⟩
        "state1" none).2.filter CallEvent.isUserinfoCall) =
      [CallEvent.userinfoCall none] :=
  C10_userinfo_always_called noopClient ⟨none, some "state1", none, none, none, none⟩
    "state1" none none none none [] rfl rfl rfl

end FlaskPyoidc
